import Mathlib

/-!
Keylight: discovery, request sender and orchestrator.

A shallow embedding of `main.go` and `internal/cli/commands.go`.

Conventions of the embedding

* A Go `error` built with `fmt.Errorf` (no `%w`) is its message, a `String`;
  a `nil` error is `none`.
* The operating system, the JSON decoder and the HTTP transport are external:
  they are the fields of `Env`.  The HTTP server is a state machine over an
  arbitrary state type, so a response may depend on everything sent before.
* What the program does to the outside is recorded, in order, in a trace of
  `Event`s: every call of `http.Post`, every write to standard output and
  every `time.Sleep`.
* A JSON document is kept as a tree (`Value`); the textual encoding that
  `json.Marshal` produces is not modelled, only whether it succeeds.
* `getGameSenseAddress` is stated against an arbitrary decoder
  (`Env.jsonUnmarshal`).  For concrete discovery files the decoder of
  `encoding/json` is modelled on JSON objects with string members
  (`decodeCoreProps`): keys match the struct tags up to letter case and a later
  member overrides an earlier one.
* The deferred `file.Close()` and `resp.Body.Close()` affect nothing that is
  observed here and are left out.
-/

namespace Keylight

/-! ## Values held by `map[string]interface{}` and `json.Marshal` -/

/-- Values that the `interface{}` entries of a payload can hold.  `unsupported`
stands for the Go values `json.Marshal` rejects (channels, functions, complex
numbers); it carries the name of the Go type. -/
inductive Value where
  | str (s : String)
  | int (n : Int)
  | list (xs : List Value)
  | map (kvs : List (String × Value))
  | unsupported (typeName : String)

/-- Of the entries `(key, typeName)`, the type name under the least key:
`json.Marshal` encodes the entries of a map in the order of their keys, which
is the lexicographic order of their characters. -/
def leastKeyed (entries : List (String × String)) : Option String :=
  (entries.foldl (fun best e =>
    match best with
    | none => some e
    | some b => if e.1.data < b.1.data then some e else some b) none).map (fun e => e.2)

mutual
/-- Name of the first value inside `v` that `json.Marshal` cannot encode. -/
def Value.firstUnsupported : Value → Option String
  | .str _ => none
  | .int _ => none
  | .list xs => firstUnsupportedList xs
  | .map kvs => leastKeyed (unsupportedFields kvs)
  | .unsupported t => some t
/-- First unsupported value among the elements of a slice. -/
def firstUnsupportedList : List Value → Option String
  | [] => none
  | v :: vs => (v.firstUnsupported).orElse (fun _ => firstUnsupportedList vs)
/-- The entries of a map whose value cannot be encoded: the key, and the name
of the first unsupported type inside the value. -/
def unsupportedFields : List (String × Value) → List (String × String)
  | [] => []
  | (k, v) :: kvs =>
    match v.firstUnsupported with
    | some t => (k, t) :: unsupportedFields kvs
    | none => unsupportedFields kvs
end

/-- Go `json.Marshal`: fails with `json: unsupported type: T` when the value
holds something that has no JSON encoding, and otherwise yields the document. -/
def jsonMarshal (v : Value) : Except String Value :=
  match v.firstUnsupported with
  | some t => .error ("json: unsupported type: " ++ t)
  | none => .ok v

/-- A `[][]int` as a JSON array of arrays of numbers. -/
def bitmapValue (bitmap : List (List Int)) : Value :=
  .list (bitmap.map (fun px => .list (px.map .int)))

/-! ## The outside world -/

/-- What `http.Post(url, contentType, body)` is called with. -/
structure Request where
  url : String
  contentType : String
  body : Value

/-- What `http.Post` returns: an error, or a response with its status code and
the body as `io.ReadAll(resp.Body)` delivers it. -/
inductive HttpResult where
  | failure (err : String)
  | response (statusCode : Int) (body : String)

/-- An open file: what `io.ReadAll` yields on it. -/
structure File where
  readAll : Except String String

/-- The struct `json.Unmarshal` fills in `getGameSenseAddress`.  A field the
document does not have keeps Go's zero value, the empty string. -/
structure CoreProps where
  Address : String
  EncryptedAddress : String
  GGEncryptedAddress : String

/-- The external collaborators: `os.Open`, `json.Unmarshal` into `CoreProps`,
and `http.Post` against a server in state `σ`. -/
structure Env (σ : Type) where
  osOpen : String → Except String File
  jsonUnmarshal : String → Except String CoreProps
  httpPost : σ → Request → HttpResult × σ

/-- Observable actions of the program. -/
inductive Event where
  | post (r : Request)
  | print (s : String)
  | sleep (nanoseconds : Nat)

/-- State threaded through the program: the server and the trace so far. -/
structure World (σ : Type) where
  server : σ
  trace : List Event

/-- Append one event to the trace. -/
def World.emit {σ : Type} (w : World σ) (e : Event) : World σ :=
  ⟨w.server, w.trace ++ [e]⟩

/-- Go `time.Second`, in nanoseconds. -/
def Second : Nat := 1000000000

/-! ## `main.go` -/

/-- Go `http.StatusOK`. -/
def StatusOK : Int := 200

/-- Go function `sendPostRequest(address, endpoint, data)`. -/
def sendPostRequest {σ : Type} (env : Env σ) (address endpoint : String)
    (data : List (String × Value)) (w : World σ) : Option String × World σ :=
  match jsonMarshal (.map data) with
  | .error err => (some ("failed to marshal JSON: " ++ err), w)
  | .ok jsonData =>
    let url := "http://" ++ address ++ endpoint
    let req : Request := ⟨url, "application/json", jsonData⟩
    match env.httpPost w.server req with
    | (.failure err, s) =>
      (some ("failed to send request: " ++ err), ⟨s, w.trace ++ [.post req]⟩)
    | (.response statusCode body, s) =>
      if statusCode ≠ StatusOK then
        (some ("API returned status " ++ toString statusCode ++ ": " ++ body),
          ⟨s, w.trace ++ [.post req]⟩)
      else
        (none, ⟨s, w.trace ++ [.post req]⟩)

/-- Go function `registerGame(address)`. -/
def registerGame {σ : Type} (env : Env σ) (address : String) (w : World σ) :
    Option String × World σ :=
  let gameData : List (String × Value) :=
    [("game", .str "KEYLIGHT"),
     ("game_display_name", .str "Keylight"),
     ("developer", .str "mimikun")]
  sendPostRequest env address "/game_metadata" gameData w

/-- Go function `bindEvent(address)`. -/
def bindEvent {σ : Type} (env : Env σ) (address : String) (w : World σ) :
    Option String × World σ :=
  let bindData : List (String × Value) :=
    [("game", .str "KEYLIGHT"),
     ("event", .str "KEYBOARD_CONTROL"),
     ("handlers", .list [.map
        [("device-type", .str "keyboard"),
         ("zone", .str "all"),
         ("mode", .str "color")]])]
  sendPostRequest env address "/bind_game_event" bindData w

/-- Go `make([][]int, n)`: `n` nil slices. -/
def makeBitmap (n : Nat) : List (List Int) := List.replicate n []

/-- The loop `for i := range bitmap { bitmap[i] = px }`. -/
def fillBitmap (px : List Int) (bitmap : List (List Int)) : List (List Int) :=
  (List.range bitmap.length).foldl (fun b i => b.set i px) bitmap

/-- Go function `turnOffAllKeys(address)`. -/
def turnOffAllKeys {σ : Type} (env : Env σ) (address : String) (w : World σ) :
    Option String × World σ :=
  let bitmap := fillBitmap [0, 0, 0] (makeBitmap 132)
  let eventData : List (String × Value) :=
    [("game", .str "KEYLIGHT"),
     ("event", .str "KEYBOARD_CONTROL"),
     ("data", .map [("bitmap", bitmapValue bitmap)])]
  sendPostRequest env address "/game_event" eventData w

/-- Go function `lightHJKLKeys(address)`. -/
def lightHJKLKeys {σ : Type} (env : Env σ) (address : String) (w : World σ) :
    Option String × World σ :=
  let bitmap := fillBitmap [255, 0, 0] (makeBitmap 132)
  let eventData : List (String × Value) :=
    [("game", .str "KEYLIGHT"),
     ("event", .str "KEYBOARD_CONTROL"),
     ("data", .map [("bitmap", bitmapValue bitmap)])]
  sendPostRequest env address "/game_event" eventData w

/-- Path of the discovery file. -/
def configPath : String :=
  "C:\\ProgramData\\SteelSeries\\SteelSeries Engine 3\\coreProps.json"

/-- Go function `getGameSenseAddress()`, returning the Go pair `(string, error)`. -/
def getGameSenseAddress {σ : Type} (env : Env σ) : String × Option String :=
  match env.osOpen configPath with
  | .error err => ("", some ("failed to open coreProps.json: " ++ err))
  | .ok file =>
    match file.readAll with
    | .error err => ("", some ("failed to read coreProps.json: " ++ err))
    | .ok data =>
      match env.jsonUnmarshal data with
      | .error err => ("", some ("failed to parse coreProps.json: " ++ err))
      | .ok config =>
        if config.Address = "" then
          ("", some "address not found in coreProps.json")
        else
          (config.Address, none)

/-- Go function `main()`: the final world and the exit status of the process (`os.Exit(1)`
on an abort, 0 when `main` returns). -/
def main {σ : Type} (env : Env σ) (w : World σ) : World σ × Nat :=
  match getGameSenseAddress env with
  | (_, some err) =>
    (w.emit (.print ("Failed to get GameSense address: " ++ err ++ "\n")), 1)
  | (address, none) =>
    match registerGame env address w with
    | (some err, w) =>
      (w.emit (.print ("Failed to register game: " ++ err ++ "\n")), 1)
    | (none, w) =>
      match bindEvent env address w with
      | (some err, w) =>
        (w.emit (.print ("Failed to bind event: " ++ err ++ "\n")), 1)
      | (none, w) =>
        match turnOffAllKeys env address w with
        | (some err, w) =>
          (w.emit (.print ("Failed to turn off keys: " ++ err ++ "\n")), 1)
        | (none, w) =>
          match lightHJKLKeys env address w with
          | (some err, w) =>
            (w.emit (.print ("Failed to light HJKL keys: " ++ err ++ "\n")), 1)
          | (none, w) =>
            let w := w.emit (.print "HJKL keys lit for 10 seconds...\n")
            let w := w.emit (.sleep (10 * Second))
            match turnOffAllKeys env address w with
            | (some err, w) =>
              (w.emit (.print ("Failed to turn off keys: " ++ err ++ "\n")), 1)
            | (none, w) =>
              (w.emit (.print "Done!\n"), 0)

/-! ## `internal/cli/commands.go` -/

namespace cli

/-- The struct `Command`. -/
structure Command where
  Action : String
deriving DecidableEq

/-- Go function `ParseArgs(args)`, returning the Go pair `(*Command, error)`. -/
def ParseArgs (args : List String) : Option Command × Option String :=
  match args with
  | [] => (none, some "no arguments provided")
  | arg0 :: _ =>
    if arg0 = "--success" then (some ⟨"success"⟩, none)
    else if arg0 = "--failure" then (some ⟨"failure"⟩, none)
    else if arg0 = "--init-scenes" then (some ⟨"init-scenes"⟩, none)
    else (none, some ("invalid argument: " ++ arg0))

end cli

/-! ## Reading a run -/

/-- A process starts with an empty trace. -/
def initWorld {σ : Type} (s : σ) : World σ := ⟨s, []⟩

/-- One run of the program against a server in state `s`. -/
def run {σ : Type} (env : Env σ) (s : σ) : World σ × Nat := main env (initWorld s)

/-- The requests of a trace, in order. -/
def requests (t : List Event) : List Request :=
  t.filterMap (fun e => match e with | .post r => some r | _ => none)

/-- The outputs of a trace, in order. -/
def prints (t : List Event) : List String :=
  t.filterMap (fun e => match e with | .print s => some s | _ => none)

/-- The waits of a trace, in order. -/
def sleeps (t : List Event) : List Nat :=
  t.filterMap (fun e => match e with | .sleep d => some d | _ => none)

/-! ## A scripted environment for concrete runs -/

/-- Contents of a discovery file advertising `127.0.0.1:5678`. -/
def sampleCoreProps : String := "\x7b\"address\":\"127.0.0.1:5678\"\x7d"

/-- An environment whose discovery file is `sampleCoreProps` and whose server
counts the requests it has received: request number `failAt` (from 0) is
answered with status 500 and body `boom`, every other one with status 200;
with `none` every request is answered with status 200. -/
def scriptedEnv (failAt : Option Nat) : Env Nat where
  osOpen := fun path =>
    if path = configPath then .ok ⟨.ok sampleCoreProps⟩
    else .error "open: The system cannot find the file specified."
  jsonUnmarshal := fun data =>
    if data = sampleCoreProps then .ok ⟨"127.0.0.1:5678", "", ""⟩
    else .error "invalid character"
  httpPost := fun n _ =>
    (if some n = failAt then .response 500 "boom" else .response 200 "", n + 1)

/-! ## Vocabulary of the statements -/

/-- The error `sendPostRequest` makes of what `http.Post` returned; `none` for
a response with status 200. -/
def responseError : HttpResult → Option String
  | .failure err => some ("failed to send request: " ++ err)
  | .response statusCode body =>
    if statusCode ≠ StatusOK then
      some ("API returned status " ++ toString statusCode ++ ": " ++ body)
    else none

/-- The request of step 2 for the address `A`. -/
def registerRequest (A : String) : Request :=
  ⟨"http://" ++ A ++ "/game_metadata", "application/json",
    .map [("game", .str "KEYLIGHT"),
          ("game_display_name", .str "Keylight"),
          ("developer", .str "mimikun")]⟩

/-- The request of step 3 for the address `A`. -/
def bindRequest (A : String) : Request :=
  ⟨"http://" ++ A ++ "/bind_game_event", "application/json",
    .map [("game", .str "KEYLIGHT"),
          ("event", .str "KEYBOARD_CONTROL"),
          ("handlers", .list [.map
            [("device-type", .str "keyboard"),
             ("zone", .str "all"),
             ("mode", .str "color")]])]⟩

/-- A `/game_event` request for the address `A` whose bitmap has 132 entries,
all equal to `px`. -/
def eventRequest (A : String) (px : List Int) : Request :=
  ⟨"http://" ++ A ++ "/game_event", "application/json",
    .map [("game", .str "KEYLIGHT"),
          ("event", .str "KEYBOARD_CONTROL"),
          ("data", .map [("bitmap", bitmapValue (List.replicate 132 px))])]⟩

/-- The five requests of the sequence, steps 2, 3, 4, 5 and 7. -/
def plannedRequests (A : String) : List Request :=
  [registerRequest A, bindRequest A, eventRequest A [0, 0, 0],
   eventRequest A [255, 0, 0], eventRequest A [0, 0, 0]]

/-- What the server answers when it is sent the requests `rs` one after
another, starting in state `s`. -/
def outcomes {σ : Type} (env : Env σ) : σ → List Request → List HttpResult
  | _, [] => []
  | s, r :: rs => (env.httpPost s r).1 :: outcomes env (env.httpPost s r).2 rs

/-! ## The decoder of `encoding/json` on the discovery file -/

/-- Go `encoding/json` folds a key before it looks up the struct field: an
ASCII letter loses its case, and the two other letters that have an ASCII
letter in their fold set, U+017F and U+212A, become `S` and `K`.  No other
character folds to an ASCII letter. -/
def foldRune (c : Char) : Char :=
  if c = Char.ofNat 0x17F then 'S'
  else if c = Char.ofNat 0x212A then 'K'
  else c.toUpper

/-- Go `encoding/json` folded name of a key. -/
def foldName (name : String) : String := String.mk (name.data.map foldRune)

/-- The decoder storing one string member `key: value` of the object: the
member goes to the field whose tag equals the key up to folding, and a key
that names no field is skipped. -/
def storeMember (config : CoreProps) (key value : String) : CoreProps :=
  if foldName key = foldName "address" then
    ⟨value, config.EncryptedAddress, config.GGEncryptedAddress⟩
  else if foldName key = foldName "encryptedAddress" then
    ⟨config.Address, value, config.GGEncryptedAddress⟩
  else if foldName key = foldName "ggEncryptedAddress" then
    ⟨config.Address, config.EncryptedAddress, value⟩
  else config

/-- Go `json.Unmarshal` into the struct of `getGameSenseAddress`, applied to a
JSON object all of whose members are strings; `members` lists them in the
order of the text.  The decoder stores the members one after another into the
zero struct, so of two members that name the same field the later one stays. -/
def decodeCoreProps (members : List (String × String)) : CoreProps :=
  members.foldl (fun config m => storeMember config m.1 m.2) ⟨"", "", ""⟩

/-- An environment whose discovery file holds `text`, the JSON text of the
object with the string members `members`; its server answers every request
with status 200. -/
def discoveryEnv (text : String) (members : List (String × String)) : Env Nat where
  osOpen := fun path =>
    if path = configPath then .ok ⟨.ok text⟩
    else .error "open: The system cannot find the file specified."
  jsonUnmarshal := fun data =>
    if data = text then .ok (decodeCoreProps members)
    else .error "invalid character"
  httpPost := fun n _ => (.response 200 "", n + 1)

/-- Value of a decimal digit character. -/
def digitVal (c : Char) : Nat := c.toNat - 48

/-- Value of a string of decimal digits, most significant first. -/
def decimalVal (cs : List Char) : Nat := cs.foldl (fun acc c => 10 * acc + digitVal c) 0

/-! ## Lemmas on the steps -/

set_option maxRecDepth 100000

theorem fillBitmap_black : fillBitmap [0, 0, 0] (makeBitmap 132) = List.replicate 132 [0, 0, 0] := by
  decide

theorem fillBitmap_red : fillBitmap [255, 0, 0] (makeBitmap 132) = List.replicate 132 [255, 0, 0] := by
  decide

theorem sendPostRequest_eq {σ : Type} (env : Env σ) (a ep : String)
    (data : List (String × Value)) (w : World σ)
    (h : (Value.map data).firstUnsupported = none) :
    sendPostRequest env a ep data w =
      (responseError (env.httpPost w.server ⟨"http://" ++ a ++ ep, "application/json", .map data⟩).1,
        ⟨(env.httpPost w.server ⟨"http://" ++ a ++ ep, "application/json", .map data⟩).2,
          w.trace ++ [.post ⟨"http://" ++ a ++ ep, "application/json", .map data⟩]⟩) := by
  unfold sendPostRequest jsonMarshal
  rw [h]
  simp only
  rcases env.httpPost w.server ⟨"http://" ++ a ++ ep, "application/json", .map data⟩ with ⟨res, s⟩
  cases res with
  | failure err => rfl
  | response st body =>
    by_cases hst : st = StatusOK <;> simp [responseError, hst]

theorem registerGame_eq {σ : Type} (env : Env σ) (A : String) (w : World σ) :
    registerGame env A w =
      (responseError (env.httpPost w.server (registerRequest A)).1,
        ⟨(env.httpPost w.server (registerRequest A)).2,
          w.trace ++ [.post (registerRequest A)]⟩) := by
  unfold registerGame
  exact sendPostRequest_eq env A "/game_metadata" _ w (by decide)

theorem bindEvent_eq {σ : Type} (env : Env σ) (A : String) (w : World σ) :
    bindEvent env A w =
      (responseError (env.httpPost w.server (bindRequest A)).1,
        ⟨(env.httpPost w.server (bindRequest A)).2,
          w.trace ++ [.post (bindRequest A)]⟩) := by
  unfold bindEvent
  exact sendPostRequest_eq env A "/bind_game_event" _ w (by decide)

theorem turnOffAllKeys_eq {σ : Type} (env : Env σ) (A : String) (w : World σ) :
    turnOffAllKeys env A w =
      (responseError (env.httpPost w.server (eventRequest A [0, 0, 0])).1,
        ⟨(env.httpPost w.server (eventRequest A [0, 0, 0])).2,
          w.trace ++ [.post (eventRequest A [0, 0, 0])]⟩) := by
  unfold turnOffAllKeys
  rw [fillBitmap_black]
  exact sendPostRequest_eq env A "/game_event" _ w (by decide)

theorem lightHJKLKeys_eq {σ : Type} (env : Env σ) (A : String) (w : World σ) :
    lightHJKLKeys env A w =
      (responseError (env.httpPost w.server (eventRequest A [255, 0, 0])).1,
        ⟨(env.httpPost w.server (eventRequest A [255, 0, 0])).2,
          w.trace ++ [.post (eventRequest A [255, 0, 0])]⟩) := by
  unfold lightHJKLKeys
  rw [fillBitmap_red]
  exact sendPostRequest_eq env A "/game_event" _ w (by decide)

theorem url_ne_of_endpoint_ne (A e₁ e₂ : String) (h : e₁ ≠ e₂) :
    "http://" ++ A ++ e₁ ≠ "http://" ++ A ++ e₂ := by
  intro heq
  apply h
  have hd := congrArg String.data heq
  simp only [String.data_append, List.append_cancel_left_eq] at hd
  exact String.ext hd

theorem responseError_ok (b : String) : responseError (.response 200 b) = none := by
  simp [responseError, StatusOK]


theorem ne_append_of_head (a p e : String) (h : a.data.head? ≠ p.data.head?)
    (hp : p.data ≠ []) : a ≠ p ++ e := by
  intro heq
  apply h
  rw [heq, String.data_append]
  cases hpd : p.data with
  | nil => exact absurd hpd hp
  | cons c cs => simp

theorem run_requests_take {σ : Type} (env : Env σ) (s : σ) (A : String)
    (hd : getGameSenseAddress env = (A, none)) :
    ∃ k, requests (run env s).1.trace = (plannedRequests A).take k := by
  cases h1 : responseError (env.httpPost s (registerRequest A)).1 with
  | some e =>
    exact ⟨1, by simp [run, main, initWorld, hd, registerGame_eq, h1, World.emit, requests,
      plannedRequests]⟩
  | none =>
    cases h2 : responseError (env.httpPost (env.httpPost s (registerRequest A)).2
        (bindRequest A)).1 with
    | some e =>
      exact ⟨2, by simp [run, main, initWorld, hd, registerGame_eq, bindEvent_eq, h1, h2,
        World.emit, requests, plannedRequests]⟩
    | none =>
      cases h3 : responseError (env.httpPost (env.httpPost (env.httpPost s
          (registerRequest A)).2 (bindRequest A)).2 (eventRequest A [0, 0, 0])).1 with
      | some e =>
        exact ⟨3, by simp [run, main, initWorld, hd, registerGame_eq, bindEvent_eq,
          turnOffAllKeys_eq, h1, h2, h3, World.emit, requests, plannedRequests]⟩
      | none =>
        cases h4 : responseError (env.httpPost (env.httpPost (env.httpPost (env.httpPost s
            (registerRequest A)).2 (bindRequest A)).2 (eventRequest A [0, 0, 0])).2
            (eventRequest A [255, 0, 0])).1 with
        | some e =>
          exact ⟨4, by simp [run, main, initWorld, hd, registerGame_eq, bindEvent_eq,
            turnOffAllKeys_eq, lightHJKLKeys_eq, h1, h2, h3, h4, World.emit, requests,
            plannedRequests]⟩
        | none =>
          refine ⟨5, ?_⟩
          cases h5 : responseError (env.httpPost (env.httpPost (env.httpPost (env.httpPost
              (env.httpPost s (registerRequest A)).2 (bindRequest A)).2
              (eventRequest A [0, 0, 0])).2 (eventRequest A [255, 0, 0])).2
              (eventRequest A [0, 0, 0])).1 <;>
            simp [run, main, initWorld, hd, registerGame_eq, bindEvent_eq,
              turnOffAllKeys_eq, lightHJKLKeys_eq, h1, h2, h3, h4, h5, World.emit, requests,
              plannedRequests]


/-! ## Decimal rendering of a status code -/

theorem digitVal_digitChar (d : Nat) (h : d < 10) : digitVal (Nat.digitChar d) = d := by
  interval_cases d <;> decide

theorem digitChar_isDigit (d : Nat) (h : d < 10) : (Nat.digitChar d).isDigit = true := by
  interval_cases d <;> decide

theorem toDigitsCore_append (fuel n : Nat) (ds : List Char) :
    Nat.toDigitsCore 10 fuel n ds = Nat.toDigitsCore 10 fuel n [] ++ ds := by
  induction fuel generalizing n ds with
  | zero => simp [Nat.toDigitsCore]
  | succ fuel ih =>
    simp only [Nat.toDigitsCore]
    split
    · simp
    · rw [ih (n / 10) (Nat.digitChar (n % 10) :: ds), ih (n / 10) [Nat.digitChar (n % 10)]]
      simp

theorem decimalVal_snoc (cs : List Char) (c : Char) :
    decimalVal (cs ++ [c]) = 10 * decimalVal cs + digitVal c := by
  simp [decimalVal, List.foldl_append]

theorem decimalVal_toDigitsCore (fuel n : Nat) (h : n < fuel) :
    decimalVal (Nat.toDigitsCore 10 fuel n []) = n := by
  induction fuel generalizing n with
  | zero => omega
  | succ fuel ih =>
    simp only [Nat.toDigitsCore]
    split
    · rename_i h0
      have hn : n % 10 = n := by omega
      have hv := digitVal_digitChar (n % 10) (Nat.mod_lt _ (by decide))
      simp only [decimalVal, List.foldl_cons, List.foldl_nil, hv]
      omega
    · rename_i h0
      rw [toDigitsCore_append, decimalVal_snoc, ih (n / 10) (by omega),
        digitVal_digitChar (n % 10) (Nat.mod_lt _ (by decide))]
      omega

theorem isDigit_toDigitsCore (fuel n : Nat) :
    ∀ c ∈ Nat.toDigitsCore 10 fuel n [], c.isDigit = true := by
  induction fuel generalizing n with
  | zero => simp [Nat.toDigitsCore]
  | succ fuel ih =>
    simp only [Nat.toDigitsCore]
    split
    · intro c hc
      simp only [List.mem_singleton] at hc
      rw [hc]
      exact digitChar_isDigit _ (Nat.mod_lt _ (by decide))
    · rw [toDigitsCore_append]
      intro c hc
      simp only [List.mem_append, List.mem_singleton] at hc
      rcases hc with hc | hc
      · exact ih _ c hc
      · rw [hc]
        exact digitChar_isDigit _ (Nat.mod_lt _ (by decide))

/-- The characters `%d` prints for a Go `int`. -/
theorem toString_int_data (n : Int) :
    (toString n).data =
      match n with
      | Int.ofNat m => Nat.toDigits 10 m
      | Int.negSucc m => '-' :: Nat.toDigits 10 (m + 1) := by
  cases n <;> rfl

theorem toDigits_inj {m n : Nat} (h : Nat.toDigits 10 m = Nat.toDigits 10 n) : m = n := by
  have hm := decimalVal_toDigitsCore (m + 1) m (by omega)
  have hn := decimalVal_toDigitsCore (n + 1) n (by omega)
  unfold Nat.toDigits at h
  rw [h] at hm
  omega

theorem toString_int_inj {m n : Int} (h : toString m = toString n) : m = n := by
  have hd := congrArg String.data h
  rw [toString_int_data, toString_int_data] at hd
  cases m with
  | ofNat a =>
    cases n with
    | ofNat b => simp only at hd; rw [toDigits_inj hd]
    | negSucc b =>
      simp only at hd
      have := isDigit_toDigitsCore (a + 1) a '-' (by unfold Nat.toDigits at hd; rw [hd]; simp)
      exact absurd this (by decide)
  | negSucc a =>
    cases n with
    | ofNat b =>
      simp only at hd
      have := isDigit_toDigitsCore (b + 1) b '-' (by unfold Nat.toDigits at hd; rw [← hd]; simp)
      exact absurd this (by decide)
    | negSucc b =>
      simp only [List.cons.injEq, true_and] at hd
      have := toDigits_inj hd
      have : a = b := by omega
      rw [this]

theorem colon_not_mem_toString_int (n : Int) : ':' ∉ (toString n).data := by
  rw [toString_int_data]
  cases n with
  | ofNat a =>
    intro hc
    exact absurd (isDigit_toDigitsCore (a + 1) a ':' hc) (by decide)
  | negSucc a =>
    intro hc
    simp only [List.mem_cons] at hc
    rcases hc with hc | hc
    · exact absurd hc (by decide)
    · exact absurd (isDigit_toDigitsCore (a + 1 + 1) (a + 1) ':' hc) (by decide)

theorem split_at_first {α : Type} (x : α) :
    ∀ (l₁ l₂ r₁ r₂ : List α), x ∉ l₁ → x ∉ l₂ → l₁ ++ x :: r₁ = l₂ ++ x :: r₂ →
      l₁ = l₂ ∧ r₁ = r₂
  | [], [], _, _, _, _, h => by simpa using h
  | [], b :: l₂, _, _, _, h₂, h => by
    simp only [List.nil_append, List.cons_append, List.cons.injEq] at h
    exact absurd h.1 (by intro hx; exact h₂ (by simp [hx]))
  | a :: l₁, [], _, _, h₁, _, h => by
    simp only [List.nil_append, List.cons_append, List.cons.injEq] at h
    exact absurd h.1 (by intro hx; exact h₁ (by simp [hx]))
  | a :: l₁, b :: l₂, r₁, r₂, h₁, h₂, h => by
    simp only [List.cons_append, List.cons.injEq] at h
    have := split_at_first x l₁ l₂ r₁ r₂ (fun hx => h₁ (by simp [hx]))
      (fun hx => h₂ (by simp [hx])) h.2
    exact ⟨by rw [h.1, this.1], this.2⟩

theorem apiError_inj {s s' : Int} {b b' : String}
    (h : "API returned status " ++ toString s ++ ": " ++ b =
      "API returned status " ++ toString s' ++ ": " ++ b') : s = s' ∧ b = b' := by
  have hd := congrArg String.data h
  simp only [String.data_append, List.append_assoc, List.append_cancel_left_eq] at hd
  have hsplit := split_at_first ':' (toString s).data (toString s').data
    (' ' :: b.data) (' ' :: b'.data) (colon_not_mem_toString_int s)
    (colon_not_mem_toString_int s') hd
  refine ⟨toString_int_inj (String.ext hsplit.1), String.ext ?_⟩
  simpa using hsplit.2

/-! ## The claims -/

/-- Claim C1: when discovery yields the address `A` and each of the five POSTs is
answered with status 200, a run does exactly this, in this order: POST `/game_metadata`,
POST `/bind_game_event`, POST `/game_event` with the all-black bitmap, POST
`/game_event` with the light bitmap, print, wait 10 seconds, POST `/game_event`
with the all-black bitmap, print `Done!`.  So five requests are issued, all to
`A`, the only wait lies between the fourth and the fifth, and the exit status
is 0. -/
theorem main_success_path {σ : Type} (env : Env σ) (s : σ) (A : String)
    (hdisc : getGameSenseAddress env = (A, none))
    (h200 : ∀ res ∈ outcomes env s (plannedRequests A), ∃ b, res = .response 200 b) :
    (run env s).1.trace =
        [.post (registerRequest A), .post (bindRequest A),
         .post (eventRequest A [0, 0, 0]), .post (eventRequest A [255, 0, 0]),
         .print "HJKL keys lit for 10 seconds...\n", .sleep (10 * Second),
         .post (eventRequest A [0, 0, 0]), .print "Done!\n"] ∧
      requests (run env s).1.trace = plannedRequests A ∧
      (plannedRequests A).map (fun r => r.url) =
        ["http://" ++ A ++ "/game_metadata", "http://" ++ A ++ "/bind_game_event",
         "http://" ++ A ++ "/game_event", "http://" ++ A ++ "/game_event",
         "http://" ++ A ++ "/game_event"] ∧
      sleeps (run env s).1.trace = [10 * Second] ∧
      (run env s).2 = 0 := by
  simp only [outcomes, plannedRequests, List.mem_cons, List.not_mem_nil, or_false,
    forall_eq_or_imp, forall_eq] at h200
  obtain ⟨⟨b₁, h₁⟩, ⟨b₂, h₂⟩, ⟨b₃, h₃⟩, ⟨b₄, h₄⟩, ⟨b₅, h₅⟩⟩ := h200
  have e₁ := congrArg responseError h₁
  have e₂ := congrArg responseError h₂
  have e₃ := congrArg responseError h₃
  have e₄ := congrArg responseError h₄
  have e₅ := congrArg responseError h₅
  rw [responseError_ok] at e₁ e₂ e₃ e₄ e₅
  have htrace : run env s =
      (⟨(env.httpPost (env.httpPost (env.httpPost (env.httpPost (env.httpPost s
          (registerRequest A)).2 (bindRequest A)).2 (eventRequest A [0, 0, 0])).2
          (eventRequest A [255, 0, 0])).2 (eventRequest A [0, 0, 0])).2,
        [.post (registerRequest A), .post (bindRequest A),
         .post (eventRequest A [0, 0, 0]), .post (eventRequest A [255, 0, 0]),
         .print "HJKL keys lit for 10 seconds...\n", .sleep (10 * Second),
         .post (eventRequest A [0, 0, 0]), .print "Done!\n"]⟩, 0) := by
    simp [run, main, initWorld, hdisc, registerGame_eq, bindEvent_eq, turnOffAllKeys_eq,
      lightHJKLKeys_eq, e₁, e₂, e₃, e₄, e₅, World.emit]
  rw [htrace]
  refine ⟨rfl, ?_, rfl, ?_, rfl⟩
  · simp [requests, plannedRequests]
  · simp [sleeps]

/-- Claim C2: a run aborts at its first failure.  If discovery fails, nothing is
sent, there is no wait and the exit status is non-zero.  If discovery yields
`A` and, of the five POSTs, the first `k` are answered with status 200 and the
next one is not (its error being `e`), then the requests issued are exactly the
first `k + 1` of the sequence, the wait happens only when `k = 4` (steps 1 to 5
all succeeded), and the exit status is non-zero.  In particular a 500 on
`/bind_game_event` after a 200 on `/game_metadata` gives exactly two requests,
none to `/game_event`, no wait and a non-zero exit status. -/
theorem main_aborts_at_first_failure {σ : Type} (env : Env σ) (s : σ) :
    (∀ a e, getGameSenseAddress env = (a, some e) →
      requests (run env s).1.trace = [] ∧ sleeps (run env s).1.trace = [] ∧
        (run env s).2 ≠ 0) ∧
    (∀ A k e, getGameSenseAddress env = (A, none) →
      ((outcomes env s (plannedRequests A)).map responseError).take (k + 1)
        = List.replicate k none ++ [some e] →
      requests (run env s).1.trace = (plannedRequests A).take (k + 1) ∧
        sleeps (run env s).1.trace = (if k = 4 then [10 * Second] else []) ∧
        (run env s).2 ≠ 0) ∧
    (∀ A b₁ s₁ b₂ s₂, getGameSenseAddress env = (A, none) →
      env.httpPost s (registerRequest A) = (.response 200 b₁, s₁) →
      env.httpPost s₁ (bindRequest A) = (.response 500 b₂, s₂) →
      requests (run env s).1.trace = [registerRequest A, bindRequest A] ∧
        (∀ r ∈ requests (run env s).1.trace, r.url ≠ "http://" ++ A ++ "/game_event") ∧
        sleeps (run env s).1.trace = [] ∧ (run env s).2 ≠ 0) := by
  refine ⟨?_, ?_, ?_⟩
  · intro a e hd
    simp [run, main, initWorld, hd, World.emit, requests, sleeps]
  · intro A k e hd hk
    have hlt : k < 5 := by
      have hl := congrArg List.length hk
      simp [outcomes, plannedRequests] at hl
      omega
    interval_cases k <;>
      simp [outcomes, plannedRequests, List.replicate] at hk <;>
      simp [run, main, initWorld, hd, registerGame_eq, bindEvent_eq, turnOffAllKeys_eq,
        lightHJKLKeys_eq, hk, World.emit, requests, sleeps, plannedRequests]
  · intro A b₁ s₁ b₂ s₂ hd h1 h2
    have e1 : responseError (HttpResult.response 200 b₁) = none := responseError_ok b₁
    have e2 : responseError (HttpResult.response 500 b₂) =
        some ("API returned status " ++ toString (500 : Int) ++ ": " ++ b₂) := by
      simp [responseError, StatusOK]
    have hrun : requests (run env s).1.trace = [registerRequest A, bindRequest A] ∧
        sleeps (run env s).1.trace = [] ∧ (run env s).2 ≠ 0 := by
      simp [run, main, initWorld, hd, registerGame_eq, bindEvent_eq, h1, h2, e1, e2,
        World.emit, requests, sleeps]
    refine ⟨hrun.1, ?_, hrun.2.1, hrun.2.2⟩
    rw [hrun.1]
    intro r hr
    simp only [List.mem_cons, List.mem_singleton, List.not_mem_nil, or_false] at hr
    rcases hr with rfl | rfl
    · exact url_ne_of_endpoint_ne A _ _ (by decide)
    · exact url_ne_of_endpoint_ne A _ _ (by decide)

/-- Claim C3: for a payload that `json.Marshal` can encode, `sendPostRequest`
returns a nil error exactly when the response has status 200, whatever the
address, the endpoint and the response body are; a transport failure yields an
error. -/
theorem sendPostRequest_nil_iff_status_200 {σ : Type} (env : Env σ)
    (address endpoint : String) (data : List (String × Value)) (w : World σ)
    (jsonData : Value) (hser : jsonMarshal (.map data) = .ok jsonData) :
    (∀ st body s', env.httpPost w.server
        ⟨"http://" ++ address ++ endpoint, "application/json", jsonData⟩
          = (.response st body, s') →
      ((sendPostRequest env address endpoint data w).1 = none ↔ st = 200)) ∧
    (∀ err s', env.httpPost w.server
        ⟨"http://" ++ address ++ endpoint, "application/json", jsonData⟩
          = (.failure err, s') →
      (sendPostRequest env address endpoint data w).1
        = some ("failed to send request: " ++ err)) := by
  constructor
  · intro st body s' h
    unfold sendPostRequest
    rw [hser]
    simp only [h]
    by_cases hst : st = 200 <;> simp [hst, StatusOK]
  · intro err s' h
    unfold sendPostRequest
    rw [hser]
    simp only [h]

/-- Claim C4: for a response with status `st ≠ 200` and body `body`,
`sendPostRequest` returns the error `API returned status <st>: <body>`, with the
body verbatim, and that text determines both `st` and `body`: no other status
and body produce it. -/
theorem sendPostRequest_api_error {σ : Type} (env : Env σ)
    (address endpoint : String) (data : List (String × Value)) (w : World σ)
    (jsonData : Value) (st : Int) (body : String) (s' : σ)
    (hser : jsonMarshal (.map data) = .ok jsonData)
    (hresp : env.httpPost w.server
        ⟨"http://" ++ address ++ endpoint, "application/json", jsonData⟩
          = (.response st body, s'))
    (hst : st ≠ 200) :
    (sendPostRequest env address endpoint data w).1
        = some ("API returned status " ++ toString st ++ ": " ++ body) ∧
      ∀ (st' : Int) (body' : String),
        "API returned status " ++ toString st' ++ ": " ++ body'
          = "API returned status " ++ toString st ++ ": " ++ body →
        st' = st ∧ body' = body := by
  constructor
  · unfold sendPostRequest
    rw [hser]
    simp only [hresp]
    simp [hst, StatusOK]
  · intro st' body' h
    exact apiError_inj h

/-- Claim C5, amended: when the discovery file can be opened and read and
`json.Unmarshal` decodes it to a struct whose `Address` is non-empty,
`getGameSenseAddress` returns exactly that string and a nil error, whatever the
two alternate address fields of the struct hold. -/
theorem getGameSenseAddress_returns_address {σ : Type} (env : Env σ) (file : File)
    (data : String) (config : CoreProps)
    (hopen : env.osOpen configPath = .ok file) (hread : file.readAll = .ok data)
    (hparse : env.jsonUnmarshal data = .ok config) (hne : config.Address ≠ "") :
    getGameSenseAddress env = (config.Address, none) := by
  unfold getGameSenseAddress
  rw [hopen]
  simp only [hread, hparse, hne, if_false]

/-- Claim C5 as stated fails: the discovery file
`{"address":"1.2.3.4:5","ADDRESS":""}` is readable and well formed and has the
non-empty `address` member `1.2.3.4:5`, yet `getGameSenseAddress` returns the
empty address and the error `address not found in coreProps.json`, because the
decoder stores the later member `ADDRESS` into the same field. -/
theorem address_member_overridden_by_later_key :
    ("address", "1.2.3.4:5") ∈ [("address", "1.2.3.4:5"), ("ADDRESS", "")] ∧
    getGameSenseAddress
      (discoveryEnv "\x7b\"address\":\"1.2.3.4:5\",\"ADDRESS\":\"\"\x7d"
        [("address", "1.2.3.4:5"), ("ADDRESS", "")])
      = ("", some "address not found in coreProps.json") := by
  refine ⟨by decide, by decide⟩

/-- Claim C6, amended: when the discovery file can be opened and read and
`json.Unmarshal` decodes it to a struct whose `Address` is empty,
`getGameSenseAddress` returns the empty address and the error
`address not found in coreProps.json`, whatever the two alternate address
fields of the struct hold; the errors returned when the file cannot be opened,
cannot be read or cannot be decoded are different from that error. -/
theorem getGameSenseAddress_no_fallback {σ : Type} (env : Env σ) :
    (∀ file data config, env.osOpen configPath = .ok file → file.readAll = .ok data →
      env.jsonUnmarshal data = .ok config → config.Address = "" →
      getGameSenseAddress env = ("", some "address not found in coreProps.json")) ∧
    (∀ err, env.osOpen configPath = .error err →
      getGameSenseAddress env = ("", some ("failed to open coreProps.json: " ++ err)) ∧
        "address not found in coreProps.json" ≠ "failed to open coreProps.json: " ++ err) ∧
    (∀ file err, env.osOpen configPath = .ok file → file.readAll = .error err →
      getGameSenseAddress env = ("", some ("failed to read coreProps.json: " ++ err)) ∧
        "address not found in coreProps.json" ≠ "failed to read coreProps.json: " ++ err) ∧
    (∀ file data err, env.osOpen configPath = .ok file → file.readAll = .ok data →
      env.jsonUnmarshal data = .error err →
      getGameSenseAddress env = ("", some ("failed to parse coreProps.json: " ++ err)) ∧
        "address not found in coreProps.json" ≠ "failed to parse coreProps.json: " ++ err) := by
  refine ⟨?_, ?_, ?_, ?_⟩
  · intro file data config hopen hread hparse hempty
    unfold getGameSenseAddress
    rw [hopen]
    simp only [hread, hparse, hempty, if_true]
  · intro err hopen
    refine ⟨?_, ne_append_of_head _ _ _ (by decide) (by decide)⟩
    unfold getGameSenseAddress
    rw [hopen]
  · intro file err hopen hread
    refine ⟨?_, ne_append_of_head _ _ _ (by decide) (by decide)⟩
    unfold getGameSenseAddress
    rw [hopen]
    simp only [hread]
  · intro file data err hopen hread hparse
    refine ⟨?_, ne_append_of_head _ _ _ (by decide) (by decide)⟩
    unfold getGameSenseAddress
    rw [hopen]
    simp only [hread, hparse]

/-- Claim C6 as stated fails: the discovery file
`{"ADDRESS":"10.0.0.1:80","encryptedAddress":"x"}` is readable and well formed
and has no member named `address`, yet `getGameSenseAddress` returns the address
`10.0.0.1:80` and a nil error, because the decoder matches keys to the field
up to letter case. -/
theorem address_read_from_key_of_other_case :
    (∀ m ∈ [("ADDRESS", "10.0.0.1:80"), ("encryptedAddress", "x")], m.1 ≠ "address") ∧
    getGameSenseAddress
      (discoveryEnv "\x7b\"ADDRESS\":\"10.0.0.1:80\",\"encryptedAddress\":\"x\"\x7d"
        [("ADDRESS", "10.0.0.1:80"), ("encryptedAddress", "x")])
      = ("10.0.0.1:80", none) := by
  refine ⟨by decide, by decide⟩

/-- Claim C7: for every address, `turnOffAllKeys` issues one POST to
`/game_event` whose payload has game `KEYLIGHT`, event `KEYBOARD_CONTROL` and as
`data.bitmap` the bitmap it built, which has exactly 132 entries, each equal to
`[0, 0, 0]`; and in every run that reaches both, the request of step 7 (the
fifth one) is identical to the request of step 4 (the third one). -/
theorem turnOffAllKeys_clear_bitmap {σ : Type} (env : Env σ) (address : String)
    (w : World σ) (s : σ) :
    (∃ bitmap : List (List Int),
      (turnOffAllKeys env address w).2.trace = w.trace ++
        [.post ⟨"http://" ++ address ++ "/game_event", "application/json",
          .map [("game", .str "KEYLIGHT"), ("event", .str "KEYBOARD_CONTROL"),
                ("data", .map [("bitmap", bitmapValue bitmap)])]⟩] ∧
      bitmap = fillBitmap [0, 0, 0] (makeBitmap 132) ∧
      bitmap.length = 132 ∧ ∀ px ∈ bitmap, px = [0, 0, 0]) ∧
    (∀ r₄ r₇, (requests (run env s).1.trace)[2]? = some r₄ →
      (requests (run env s).1.trace)[4]? = some r₇ → r₇ = r₄) := by
  constructor
  · refine ⟨List.replicate 132 [0, 0, 0], ?_, fillBitmap_black.symm, by simp, ?_⟩
    · rw [turnOffAllKeys_eq]
      rfl
    · intro px hpx
      exact List.eq_of_mem_replicate hpx
  · intro r₄ r₇ h4 h7
    rcases hd : getGameSenseAddress env with ⟨a, _ | e⟩
    · obtain ⟨k, hk⟩ := run_requests_take env s a hd
      rw [hk] at h4 h7
      have hk5 : 5 ≤ k := by
        by_contra hlt
        have hlen : ((plannedRequests a).take k).length ≤ 4 := by
          simp [plannedRequests]; omega
        have := List.getElem?_eq_none hlen
        rw [this] at h7
        exact absurd h7 (by simp)
      have htake : (plannedRequests a).take k = plannedRequests a :=
        List.take_of_length_le (by simp [plannedRequests]; omega)
      rw [htake] at h4 h7
      simp [plannedRequests] at h4 h7
      rw [← h4, ← h7]
    · have : requests (run env s).1.trace = [] := by
        simp [run, main, initWorld, hd, World.emit, requests]
      rw [this] at h4
      exact absurd h4 (by simp)

/-- Claim C8: for every address, `lightHJKLKeys` issues one POST to `/game_event`
whose `data.bitmap` is the bitmap it built, which has exactly 132 entries, every
one of them equal to `[255, 0, 0]`, so every channel value lies in `[0, 255]`. -/
theorem lightHJKLKeys_red_bitmap {σ : Type} (env : Env σ) (address : String)
    (w : World σ) :
    ∃ bitmap : List (List Int),
      (lightHJKLKeys env address w).2.trace = w.trace ++
        [.post ⟨"http://" ++ address ++ "/game_event", "application/json",
          .map [("game", .str "KEYLIGHT"), ("event", .str "KEYBOARD_CONTROL"),
                ("data", .map [("bitmap", bitmapValue bitmap)])]⟩] ∧
      bitmap = fillBitmap [255, 0, 0] (makeBitmap 132) ∧
      bitmap.length = 132 ∧ (∀ px ∈ bitmap, px = [255, 0, 0]) ∧
      ∀ px ∈ bitmap, ∀ c ∈ px, 0 ≤ c ∧ c ≤ 255 := by
  refine ⟨List.replicate 132 [255, 0, 0], ?_, fillBitmap_red.symm, by simp, ?_, ?_⟩
  · rw [lightHJKLKeys_eq]
    rfl
  · intro px hpx
    exact List.eq_of_mem_replicate hpx
  · intro px hpx c hc
    rw [List.eq_of_mem_replicate hpx] at hc
    simp only [List.mem_cons, List.mem_singleton, List.not_mem_nil, or_false] at hc
    rcases hc with rfl | rfl | rfl <;> decide

/-- Claim C9: `ParseArgs` returns a nil error exactly when the argument list is
non-empty and its first element is `--success`, `--failure` or `--init-scenes`;
then the command's `Action` is that element without the leading `--`.  The
empty list gives a nil command and the error `no arguments provided`, any other
first element a nil command and `invalid argument: <args[0]>`; the result does
not depend on the arguments after the first. -/
theorem ParseArgs_accepts_three_flags (args : List String) :
    ((cli.ParseArgs args).2 = none ↔
      ∃ a rest, args = a :: rest ∧
        (a = "--success" ∨ a = "--failure" ∨ a = "--init-scenes")) ∧
    (∀ a rest, args = a :: rest →
      (a = "--success" ∨ a = "--failure" ∨ a = "--init-scenes") →
      ∃ cmd, cli.ParseArgs args = (some cmd, none) ∧ "--" ++ cmd.Action = a) ∧
    (args = [] → cli.ParseArgs args = (none, some "no arguments provided")) ∧
    (∀ a rest, args = a :: rest →
      ¬ (a = "--success" ∨ a = "--failure" ∨ a = "--init-scenes") →
      cli.ParseArgs args = (none, some ("invalid argument: " ++ a))) ∧
    (∀ a rest rest', cli.ParseArgs (a :: rest) = cli.ParseArgs (a :: rest')) := by
  refine ⟨?_, ?_, ?_, ?_, ?_⟩
  · cases args with
    | nil => simp [cli.ParseArgs]
    | cons a rest =>
      simp only [cli.ParseArgs]
      by_cases h1 : a = "--success"
      · simp [h1]
      · by_cases h2 : a = "--failure"
        · simp [h2]
        · by_cases h3 : a = "--init-scenes"
          · simp [h3]
          · simp [h1, h2, h3]
  · intro a rest hargs hflag
    subst hargs
    rcases hflag with h | h | h
    · subst h; exact ⟨⟨"success"⟩, by simp [cli.ParseArgs], by decide⟩
    · subst h; exact ⟨⟨"failure"⟩, by simp [cli.ParseArgs], by decide⟩
    · subst h; exact ⟨⟨"init-scenes"⟩, by simp [cli.ParseArgs], by decide⟩
  · intro h
    subst h
    rfl
  · intro a rest hargs hflag
    subst hargs
    simp only [not_or] at hflag
    simp [cli.ParseArgs, hflag.1, hflag.2.1, hflag.2.2]
  · intro a rest rest'
    rfl

/-- Claim C10, amended: the last write of an aborting run to standard output is
exactly the text `<label>: <message of e>` followed by a newline, with the
message of the underlying error `e` unchanged, whatever characters it holds.
The label names the operation that failed: discovery, register game, bind
event, turn off keys (for step 4 and for step 7 alike) or light keys, and these
five labels are pairwise different.  An abort at steps 1 to 5 writes nothing
else; an abort at step 7 writes it after `HJKL keys lit for 10 seconds...`. -/
theorem main_abort_message {σ : Type} (env : Env σ) (s : σ) :
    (∀ a e, getGameSenseAddress env = (a, some e) →
      prints (run env s).1.trace = ["Failed to get GameSense address" ++ ": " ++ e ++ "\n"]) ∧
    (∀ A k e, getGameSenseAddress env = (A, none) →
      ((outcomes env s (plannedRequests A)).map responseError).take (k + 1)
        = List.replicate k none ++ [some e] →
      prints (run env s).1.trace =
        (if k = 4 then ["HJKL keys lit for 10 seconds...\n"] else []) ++
          [(["Failed to register game", "Failed to bind event", "Failed to turn off keys",
             "Failed to light HJKL keys", "Failed to turn off keys"].getD k "")
            ++ ": " ++ e ++ "\n"]) ∧
    ["Failed to get GameSense address", "Failed to register game", "Failed to bind event",
      "Failed to turn off keys", "Failed to light HJKL keys"].Nodup := by
  refine ⟨?_, ?_, by decide⟩
  · intro a e hd
    simp [run, main, initWorld, hd, World.emit, prints]
  · intro A k e hd hk
    have hlt : k < 5 := by
      have hl := congrArg List.length hk
      simp [outcomes, plannedRequests] at hl
      omega
    interval_cases k <;>
      simp [outcomes, plannedRequests, List.replicate] at hk <;>
      simp [run, main, initWorld, hd, registerGame_eq, bindEvent_eq, turnOffAllKeys_eq,
        lightHJKLKeys_eq, hk, World.emit, prints]

/-- Claim C10 as stated fails: the run whose third request (step 4) is answered
with 500 and the run whose fifth request (step 7) is answered with 500 abort at
different steps, yet both report `Failed to turn off keys`, and the second one
writes two texts to standard output. -/
theorem abort_label_shared_by_steps_4_and_7 :
    (requests (run (scriptedEnv (some 2)) 0).1.trace).length = 3 ∧
    (requests (run (scriptedEnv (some 4)) 0).1.trace).length = 5 ∧
    prints (run (scriptedEnv (some 2)) 0).1.trace =
      ["Failed to turn off keys: API returned status 500: boom\n"] ∧
    prints (run (scriptedEnv (some 4)) 0).1.trace =
      ["HJKL keys lit for 10 seconds...\n",
       "Failed to turn off keys: API returned status 500: boom\n"] := by
  refine ⟨by decide, by decide, by decide, by decide⟩

/-! ## The claims on concrete runs -/

/-- Claim C1 on the run against a server that answers every request with 200. -/
theorem main_success_path_witness :
    getGameSenseAddress (scriptedEnv none) = ("127.0.0.1:5678", none) ∧
    (∀ res ∈ outcomes (scriptedEnv none) 0 (plannedRequests "127.0.0.1:5678"),
      ∃ b, res = .response 200 b) ∧
    (run (scriptedEnv none) 0).1.trace =
      [.post (registerRequest "127.0.0.1:5678"), .post (bindRequest "127.0.0.1:5678"),
       .post (eventRequest "127.0.0.1:5678" [0, 0, 0]),
       .post (eventRequest "127.0.0.1:5678" [255, 0, 0]),
       .print "HJKL keys lit for 10 seconds...\n", .sleep (10 * Second),
       .post (eventRequest "127.0.0.1:5678" [0, 0, 0]), .print "Done!\n"] ∧
    (run (scriptedEnv none) 0).2 = 0 :=
  have hd : getGameSenseAddress (scriptedEnv none) = ("127.0.0.1:5678", none) := by decide
  have h200 : ∀ res ∈ outcomes (scriptedEnv none) 0 (plannedRequests "127.0.0.1:5678"),
      ∃ b, res = .response 200 b := by
    intro res hres
    simp only [outcomes, plannedRequests, scriptedEnv, List.mem_cons, List.not_mem_nil,
      or_false] at hres
    rcases hres with h | h | h | h | h <;> exact ⟨"", h⟩
  have h := main_success_path (scriptedEnv none) 0 "127.0.0.1:5678" hd h200
  ⟨hd, h200, h.1, h.2.2.2.2⟩

/-- Claim C2 on the run whose second request, `/bind_game_event`, is answered
with 500. -/
theorem main_aborts_at_first_failure_witness :
    getGameSenseAddress (scriptedEnv (some 1)) = ("127.0.0.1:5678", none) ∧
    ((outcomes (scriptedEnv (some 1)) 0 (plannedRequests "127.0.0.1:5678")).map
        responseError).take (1 + 1)
      = List.replicate 1 none ++ [some "API returned status 500: boom"] ∧
    requests (run (scriptedEnv (some 1)) 0).1.trace
      = [registerRequest "127.0.0.1:5678", bindRequest "127.0.0.1:5678"] ∧
    sleeps (run (scriptedEnv (some 1)) 0).1.trace = [] ∧
    (run (scriptedEnv (some 1)) 0).2 ≠ 0 :=
  have hd : getGameSenseAddress (scriptedEnv (some 1)) = ("127.0.0.1:5678", none) := by
    decide
  have hk : ((outcomes (scriptedEnv (some 1)) 0 (plannedRequests "127.0.0.1:5678")).map
        responseError).take (1 + 1)
      = List.replicate 1 none ++ [some "API returned status 500: boom"] := by decide
  have h := (main_aborts_at_first_failure (scriptedEnv (some 1)) 0).2.1
    "127.0.0.1:5678" 1 "API returned status 500: boom" hd hk
  ⟨hd, hk, h.1, h.2.1, h.2.2⟩

/-- Claim C3 on a request answered with 500 and on one answered with 200. -/
theorem sendPostRequest_nil_iff_status_200_witness :
    jsonMarshal (.map [("game", .str "KEYLIGHT")]) = .ok (.map [("game", .str "KEYLIGHT")]) ∧
    ((sendPostRequest (scriptedEnv (some 0)) "127.0.0.1:5678" "/game_metadata"
        [("game", .str "KEYLIGHT")] (initWorld 0)).1 = none ↔ (500 : Int) = 200) ∧
    ((sendPostRequest (scriptedEnv (some 0)) "127.0.0.1:5678" "/game_metadata"
        [("game", .str "KEYLIGHT")] (initWorld 1)).1 = none ↔ (200 : Int) = 200) :=
  ⟨rfl,
   (sendPostRequest_nil_iff_status_200 (scriptedEnv (some 0)) "127.0.0.1:5678"
      "/game_metadata" [("game", .str "KEYLIGHT")] (initWorld 0) _ rfl).1 500 "boom" 1 rfl,
   (sendPostRequest_nil_iff_status_200 (scriptedEnv (some 0)) "127.0.0.1:5678"
      "/game_metadata" [("game", .str "KEYLIGHT")] (initWorld 1) _ rfl).1 200 "" 2 rfl⟩

/-- Claim C4 on a request answered with status 500 and body `boom`. -/
theorem sendPostRequest_api_error_witness :
    jsonMarshal (.map [("game", .str "KEYLIGHT")]) = .ok (.map [("game", .str "KEYLIGHT")]) ∧
    (500 : Int) ≠ 200 ∧
    (sendPostRequest (scriptedEnv (some 0)) "127.0.0.1:5678" "/game_metadata"
        [("game", .str "KEYLIGHT")] (initWorld 0)).1
      = some ("API returned status " ++ toString (500 : Int) ++ ": " ++ "boom") ∧
    "API returned status " ++ toString (500 : Int) ++ ": " ++ "boom"
      = "API returned status 500: boom" :=
  ⟨rfl, by decide,
   (sendPostRequest_api_error (scriptedEnv (some 0)) "127.0.0.1:5678" "/game_metadata"
      [("game", .str "KEYLIGHT")] (initWorld 0) _ 500 "boom" 1 rfl rfl (by decide)).1,
   by decide⟩

/-- Claim C5, amended, on the discovery file
`{"address":"127.0.0.1:5678","encryptedAddress":"x"}`. -/
theorem getGameSenseAddress_returns_address_witness :
    (discoveryEnv "\x7b\"address\":\"127.0.0.1:5678\",\"encryptedAddress\":\"x\"\x7d"
        [("address", "127.0.0.1:5678"), ("encryptedAddress", "x")]).jsonUnmarshal
      "\x7b\"address\":\"127.0.0.1:5678\",\"encryptedAddress\":\"x\"\x7d"
      = .ok ⟨"127.0.0.1:5678", "x", ""⟩ ∧
    (⟨"127.0.0.1:5678", "x", ""⟩ : CoreProps).Address ≠ "" ∧
    getGameSenseAddress
      (discoveryEnv "\x7b\"address\":\"127.0.0.1:5678\",\"encryptedAddress\":\"x\"\x7d"
        [("address", "127.0.0.1:5678"), ("encryptedAddress", "x")])
      = ("127.0.0.1:5678", none) :=
  ⟨rfl, by decide,
   getGameSenseAddress_returns_address
     (discoveryEnv "\x7b\"address\":\"127.0.0.1:5678\",\"encryptedAddress\":\"x\"\x7d"
       [("address", "127.0.0.1:5678"), ("encryptedAddress", "x")])
     ⟨.ok "\x7b\"address\":\"127.0.0.1:5678\",\"encryptedAddress\":\"x\"\x7d"⟩
     "\x7b\"address\":\"127.0.0.1:5678\",\"encryptedAddress\":\"x\"\x7d"
     ⟨"127.0.0.1:5678", "x", ""⟩ rfl rfl rfl (by decide)⟩

/-- Claim C6, amended, on the discovery file
`{"encryptedAddress":"127.0.0.1:1234","ggEncryptedAddress":"127.0.0.1:4321"}`,
which has both alternate fields and no address. -/
theorem getGameSenseAddress_no_fallback_witness :
    (discoveryEnv
        "\x7b\"encryptedAddress\":\"127.0.0.1:1234\",\"ggEncryptedAddress\":\"127.0.0.1:4321\"\x7d"
        [("encryptedAddress", "127.0.0.1:1234"),
         ("ggEncryptedAddress", "127.0.0.1:4321")]).jsonUnmarshal
      "\x7b\"encryptedAddress\":\"127.0.0.1:1234\",\"ggEncryptedAddress\":\"127.0.0.1:4321\"\x7d"
      = .ok ⟨"", "127.0.0.1:1234", "127.0.0.1:4321"⟩ ∧
    getGameSenseAddress
      (discoveryEnv
        "\x7b\"encryptedAddress\":\"127.0.0.1:1234\",\"ggEncryptedAddress\":\"127.0.0.1:4321\"\x7d"
        [("encryptedAddress", "127.0.0.1:1234"),
         ("ggEncryptedAddress", "127.0.0.1:4321")])
      = ("", some "address not found in coreProps.json") :=
  ⟨rfl,
   (getGameSenseAddress_no_fallback
      (discoveryEnv
        "\x7b\"encryptedAddress\":\"127.0.0.1:1234\",\"ggEncryptedAddress\":\"127.0.0.1:4321\"\x7d"
        [("encryptedAddress", "127.0.0.1:1234"),
         ("ggEncryptedAddress", "127.0.0.1:4321")])).1
     ⟨.ok "\x7b\"encryptedAddress\":\"127.0.0.1:1234\",\"ggEncryptedAddress\":\"127.0.0.1:4321\"\x7d"⟩
     "\x7b\"encryptedAddress\":\"127.0.0.1:1234\",\"ggEncryptedAddress\":\"127.0.0.1:4321\"\x7d"
     ⟨"", "127.0.0.1:1234", "127.0.0.1:4321"⟩ rfl rfl rfl rfl⟩

/-- Claim C7 on the successful run: its third and fifth requests are equal. -/
theorem turnOffAllKeys_clear_bitmap_witness :
    (requests (run (scriptedEnv none) 0).1.trace)[2]?
      = some (eventRequest "127.0.0.1:5678" [0, 0, 0]) ∧
    (requests (run (scriptedEnv none) 0).1.trace)[4]?
      = some (eventRequest "127.0.0.1:5678" [0, 0, 0]) ∧
    eventRequest "127.0.0.1:5678" [0, 0, 0] = eventRequest "127.0.0.1:5678" [0, 0, 0] :=
  have h2 : (requests (run (scriptedEnv none) 0).1.trace)[2]?
      = some (eventRequest "127.0.0.1:5678" [0, 0, 0]) := rfl
  have h4 : (requests (run (scriptedEnv none) 0).1.trace)[4]?
      = some (eventRequest "127.0.0.1:5678" [0, 0, 0]) := rfl
  ⟨h2, h4,
   (turnOffAllKeys_clear_bitmap (scriptedEnv none) "127.0.0.1:5678" (initWorld 0) 0).2
     _ _ h2 h4⟩

/-- Claim C8 on the address `127.0.0.1:5678`. -/
theorem lightHJKLKeys_red_bitmap_witness :
    ∃ bitmap : List (List Int),
      (lightHJKLKeys (scriptedEnv none) "127.0.0.1:5678" (initWorld 0)).2.trace = [] ++
        [.post ⟨"http://" ++ "127.0.0.1:5678" ++ "/game_event", "application/json",
          .map [("game", .str "KEYLIGHT"), ("event", .str "KEYBOARD_CONTROL"),
                ("data", .map [("bitmap", bitmapValue bitmap)])]⟩] ∧
      bitmap = fillBitmap [255, 0, 0] (makeBitmap 132) ∧
      bitmap.length = 132 ∧ (∀ px ∈ bitmap, px = [255, 0, 0]) ∧
      ∀ px ∈ bitmap, ∀ c ∈ px, 0 ≤ c ∧ c ≤ 255 :=
  lightHJKLKeys_red_bitmap (scriptedEnv none) "127.0.0.1:5678" (initWorld 0)

/-- Claim C9 on `--init-scenes` followed by a further argument. -/
theorem ParseArgs_accepts_three_flags_witness :
    ∃ cmd, cli.ParseArgs ["--init-scenes", "now"] = (some cmd, none) ∧
      "--" ++ cmd.Action = "--init-scenes" :=
  (ParseArgs_accepts_three_flags ["--init-scenes", "now"]).2.1 "--init-scenes" ["now"] rfl
    (Or.inr (Or.inr rfl))

/-- Claim C10, amended, on the run whose fifth request (step 7) is answered
with 500. -/
theorem main_abort_message_witness :
    getGameSenseAddress (scriptedEnv (some 4)) = ("127.0.0.1:5678", none) ∧
    ((outcomes (scriptedEnv (some 4)) 0 (plannedRequests "127.0.0.1:5678")).map
        responseError).take (4 + 1)
      = List.replicate 4 none ++ [some "API returned status 500: boom"] ∧
    prints (run (scriptedEnv (some 4)) 0).1.trace =
      (if 4 = 4 then ["HJKL keys lit for 10 seconds...\n"] else []) ++
        [(["Failed to register game", "Failed to bind event", "Failed to turn off keys",
           "Failed to light HJKL keys", "Failed to turn off keys"].getD 4 "")
          ++ ": " ++ "API returned status 500: boom" ++ "\n"] :=
  have hd : getGameSenseAddress (scriptedEnv (some 4)) = ("127.0.0.1:5678", none) := by
    decide
  have hk : ((outcomes (scriptedEnv (some 4)) 0 (plannedRequests "127.0.0.1:5678")).map
        responseError).take (4 + 1)
      = List.replicate 4 none ++ [some "API returned status 500: boom"] := by decide
  ⟨hd, hk, (main_abort_message (scriptedEnv (some 4)) 0).2.1
    "127.0.0.1:5678" 4 "API returned status 500: boom" hd hk⟩

end Keylight
